import Mathlib

/-!
Verification of the ambisonics channel-projection encoder layer
(`opus_projection_encoder.c`): channel-configuration resolution, composite
buffer sizing and offsets, construction failure behaviour, and the
demixing-matrix control protocol.

External collaborators (alignment, integer square root, matrix catalog sizes,
multistream sub-encoder size and initialization results) are modelled from the
specification of their interfaces; the projection layer itself is translated
directly from the source.
-/

instance {ε α : Type} [DecidableEq ε] [DecidableEq α] : DecidableEq (Except ε α) :=
  fun a b =>
    match a, b with
    | Except.error e1, Except.error e2 => decidable_of_iff (e1 = e2) (by simp)
    | Except.ok v1, Except.ok v2 => decidable_of_iff (v1 = v2) (by simp)
    | Except.error _, Except.ok _ => isFalse (by simp)
    | Except.ok _, Except.error _ => isFalse (by simp)

/-- Status code `OPUS_OK` (success), from the public API headers. -/
def OPUS_OK : Int := 0

/-- Status code `OPUS_BAD_ARG`, from the public API headers. -/
def OPUS_BAD_ARG : Int := -1

/-- Status code `OPUS_UNIMPLEMENTED`, from the public API headers. -/
def OPUS_UNIMPLEMENTED : Int := -5

/-- Status code `OPUS_ALLOC_FAIL`, from the public API headers. -/
def OPUS_ALLOC_FAIL : Int := -7

/-- Modelled from the spec: `align` rounds a byte count up to the platform
alignment `a` (a positive constant determined by `offsetof`); kept as an
explicit parameter `a` here. -/
def alignN (a i : Nat) : Nat := ((i + a - 1) / a) * a

/-- Auxiliary for `isqrt32`: the largest `j ≤ k` with `j * j ≤ n`
(structural recursion so that the kernel can evaluate it). -/
def isqrtFrom (n : Nat) : Nat → Nat
  | 0 => 0
  | k + 1 => if (k + 1) * (k + 1) ≤ n then k + 1 else isqrtFrom n k

/-- Modelled from the spec: `isqrt32` (from `mathops`, an external
collaborator) computes the integer square root `floor(sqrt n)`. -/
def isqrt32 (n : Nat) : Nat := isqrtFrom n n

/-- `get_order_plus_one_from_channels` validates the ambisonic order formula
and reports the order on success, `OPUS_BAD_ARG` on an invalid channel count.
Translated from `opus_projection_encoder.c` lines 50-69. -/
def get_order_plus_one_from_channels (channels : Nat) : Except Int Nat :=
  let order_plus_one_ := isqrt32 channels
  let acn_channels := order_plus_one_ * order_plus_one_
  let nondiegetic_channels := channels - acn_channels
  if order_plus_one_ < 1 ∨ order_plus_one_ > 15 ∨
      (nondiegetic_channels ≠ 0 ∧ nondiegetic_channels ≠ 2) then
    Except.error OPUS_BAD_ARG
  else
    Except.ok order_plus_one_

/-- Configuration resolution: for mapping family 253 validate the channel
count and report `(streams, coupled_streams, order_plus_one)`; any other
family fails with `OPUS_BAD_ARG`. Translated from
`opus_projection_encoder.c` lines 71-86. -/
def get_streams_from_channels (channels : Nat) (mapping_family : Int) :
    Except Int (Nat × Nat × Nat) :=
  if mapping_family = 253 then
    match get_order_plus_one_from_channels channels with
    | Except.error _ => Except.error OPUS_BAD_ARG
    | Except.ok op1 => Except.ok ((channels + 1) / 2, channels / 2, op1)
  else
    Except.error OPUS_BAD_ARG

/-- Modelled from the spec: `mapping_matrix_get_size` (from the external
matrix component) returns the byte size of a matrix block: the aligned
descriptor header (`mmh` bytes before alignment) plus the aligned coefficient
data (`rows * cols` 16-bit entries), each region individually aligned. -/
def mapping_matrix_get_size (a mmh rows cols : Nat) : Nat :=
  alignN a mmh + alignN a (rows * cols * 2)

/-- Offset of the mixing matrix inside the composite buffer: `align` of the
header size. Translated from `get_mixing_matrix`,
`opus_projection_encoder.c` lines 88-91. -/
def get_mixing_matrix_offset (a hSize : Nat) : Nat := alignN a hSize

/-- Offset of the demixing matrix: `align` of the header size plus the stored
mixing-matrix size. Translated from `get_demixing_matrix`,
`opus_projection_encoder.c` lines 93-97. -/
def get_demixing_matrix_offset (a hSize mixBytes : Nat) : Nat :=
  alignN a (hSize + mixBytes)

/-- Offset of the multistream sub-encoder: `align` of the header size plus
both stored matrix sizes. Translated from `get_multistream_encoder`,
`opus_projection_encoder.c` lines 99-103. -/
def get_multistream_encoder_offset (a hSize mixBytes demixBytes : Nat) : Nat :=
  alignN a (hSize + mixBytes + demixBytes)

/-- Size query for the composite encoder: resolve the configuration, reserve
two square matrix blocks of dimension `order_plus_one^2 + 2`, add the
sub-encoder size (an external query, passed as the parameter `msSize`), and
align the total. Returns 0 when resolution fails or the sub-encoder size is 0.
Translated from `opus_projection_ambisonics_encoder_get_size`,
`opus_projection_encoder.c` lines 105-130. -/
def opus_projection_ambisonics_encoder_get_size (a hSize mmh : Nat)
    (msSize : Nat → Nat → Nat) (channels : Nat) (mapping_family : Int) : Nat :=
  match get_streams_from_channels channels mapping_family with
  | Except.error _ => 0
  | Except.ok (nb_streams, nb_coupled_streams, order_plus_one) =>
    let matrix_rows := order_plus_one * order_plus_one + 2
    let matrix_size := mapping_matrix_get_size a mmh matrix_rows matrix_rows
    let encoder_size := msSize nb_streams nb_coupled_streams
    if encoder_size = 0 then 0
    else alignN a (hSize + matrix_size + matrix_size + encoder_size)

/-- Modelled from the spec: a representative sub-encoder size query.  The
external multistream encoder reports a positive, alignment-sized byte count
that grows with the stream counts; this instance is used to evaluate the
projection layer at concrete inputs. -/
def msSizeModel (s c : Nat) : Nat := 8 * (s + c + 1)

/-- A matrix descriptor: `rows`, `cols` and the uniform `gain`, as stored at
the head of a matrix block. -/
structure MappingMatrix where
  rows : Nat
  cols : Nat
  gain : Int
deriving DecidableEq

/-- Modelled from the spec: the Matrix Catalog (external precomputed
coefficient tables).  For `order_plus_one ∈ {2, 3, 4}` the catalog supplies a
square matrix of dimension `order_plus_one^2 + 2` (6, 11, 18) with the given
gain; any other order has no catalog entry, so the descriptor keeps whatever
the uninitialized memory held, modelled by the `garbage` parameter. -/
def catalogSelect (garbage : MappingMatrix) (gain : Int) (op1 : Nat) :
    MappingMatrix :=
  if op1 = 2 then ⟨6, 6, gain⟩
  else if op1 = 3 then ⟨11, 11, gain⟩
  else if op1 = 4 then ⟨18, 18, gain⟩
  else garbage

/-- Result of initialization: the returned status plus the values written (if
any) through the caller's `streams` and `coupled_streams` out-pointers. -/
structure InitResult where
  ret : Int
  streamsOut : Option Nat
  coupledOut : Option Nat
deriving DecidableEq

/-- Initialization of the projection encoder: resolve the configuration,
reject null out-pointers, write the stream counts to the out-pointers, select
the mixing and demixing matrices from the catalog, validate the four matrix
dimension checks, then initialize the sub-encoder (an external call whose
status is the parameter `msInit`; the sample rate and application arguments
feed only that call and are therefore absorbed into `msInit`).  Translated
from `opus_projection_ambisonics_encoder_init`,
`opus_projection_encoder.c` lines 132-230. -/
def opus_projection_ambisonics_encoder_init
    (mixGarbage demixGarbage : MappingMatrix) (msInit : Int)
    (channels : Nat) (mapping_family : Int)
    (streamsProvided coupledProvided : Bool) : InitResult :=
  match get_streams_from_channels channels mapping_family with
  | Except.error _ => ⟨OPUS_BAD_ARG, none, none⟩
  | Except.ok (nb_streams, nb_coupled_streams, _) =>
    if streamsProvided = false ∨ coupledProvided = false then
      ⟨OPUS_BAD_ARG, none, none⟩
    else
      if mapping_family = 253 then
        match get_order_plus_one_from_channels channels with
        | Except.error _ =>
          ⟨OPUS_BAD_ARG, some nb_streams, some nb_coupled_streams⟩
        | Except.ok order_plus_one =>
          let mixing_matrix := catalogSelect mixGarbage 0 order_plus_one
          let demixing_matrix := catalogSelect demixGarbage 32767 order_plus_one
          if nb_streams + nb_coupled_streams > mixing_matrix.rows ∨
              channels > mixing_matrix.cols ∨
              channels > demixing_matrix.rows ∨
              nb_streams + nb_coupled_streams > demixing_matrix.cols then
            ⟨OPUS_BAD_ARG, some nb_streams, some nb_coupled_streams⟩
          else
            ⟨msInit, some nb_streams, some nb_coupled_streams⟩
      else
        ⟨OPUS_UNIMPLEMENTED, some nb_streams, some nb_coupled_streams⟩

/-- Result of creation: whether a (non-null) handle was returned, the value
written to the caller's error slot, whether the composite buffer was
allocated, whether it was freed again, and the out-pointer writes performed
by initialization. -/
structure CreateResult where
  handle : Bool
  errorOut : Option Int
  allocated : Bool
  freed : Bool
  streamsOut : Option Nat
  coupledOut : Option Nat
deriving DecidableEq

/-- Creation: query the size (0 means `OPUS_ALLOC_FAIL`), allocate the
composite buffer (a failed allocation, `allocOk = false`, also yields
`OPUS_ALLOC_FAIL`), run initialization, and on an initialization failure free
the whole buffer and return no handle; the error slot, when provided,
receives the final status.  Translated from
`opus_projection_ambisonics_encoder_create`,
`opus_projection_encoder.c` lines 232-266. -/
def opus_projection_ambisonics_encoder_create (a hSize mmh : Nat)
    (msSize : Nat → Nat → Nat) (mixGarbage demixGarbage : MappingMatrix)
    (msInit : Int) (allocOk : Bool) (channels : Nat) (mapping_family : Int)
    (streamsProvided coupledProvided errorProvided : Bool) : CreateResult :=
  let size := opus_projection_ambisonics_encoder_get_size a hSize mmh msSize
    channels mapping_family
  if size = 0 then
    ⟨false, if errorProvided then some OPUS_ALLOC_FAIL else none,
      false, false, none, none⟩
  else if allocOk = false then
    ⟨false, if errorProvided then some OPUS_ALLOC_FAIL else none,
      false, false, none, none⟩
  else
    let r := opus_projection_ambisonics_encoder_init mixGarbage demixGarbage
      msInit channels mapping_family streamsProvided coupledProvided
    if r.ret ≠ OPUS_OK then
      ⟨false, if errorProvided then some r.ret else none,
        true, true, r.streamsOut, r.coupledOut⟩
    else
      ⟨true, if errorProvided then some r.ret else none,
        true, false, r.streamsOut, r.coupledOut⟩

/-- Low byte of a coefficient as serialized: `(unsigned char) v`
(conversion to unsigned is reduction modulo 256). -/
def demixLoByte (v : Int) : Nat := (v % 256).toNat

/-- High byte of a coefficient as serialized: `(unsigned char)(v >> 8)`;
the arithmetic shift of the sign-extended 16-bit value is floor division
by 256. -/
def demixHiByte (v : Int) : Nat := (Int.fdiv v 256 % 256).toNat

/-- Little-endian serialization of the coefficients, low byte then high byte
for each entry in order. -/
def serializeCoeffs : List Int → List Nat
  | [] => []
  | v :: rest => demixLoByte v :: demixHiByte v :: serializeCoeffs rest

/-- Writing a byte string at the start of a destination buffer; the bytes
past the written region are untouched. -/
def writeBytes (dest bytes : List Nat) : List Nat :=
  bytes ++ dest.drop bytes.length

/-- The `OPUS_PROJECTION_GET_DEMIXING_MATRIX` branch of
`opus_projection_encoder_ctl`: with `nb_input_streams = streams + coupled`
and `nb_output_streams = channels` (the decoder's perspective), reject a null
destination or a byte length different from
`nb_input_streams * nb_output_streams * 2` without touching the destination;
otherwise write each of the first `nb_input_streams * nb_output_streams`
stored coefficients as two little-endian bytes.  Translated from
`opus_projection_encoder.c` lines 362-396. -/
def ctl_get_demixing_matrix (nb_channels nb_streams nb_coupled : Nat)
    (data : List Int) (destProvided : Bool) (dest : List Nat)
    (external_size : Nat) : Int × List Nat :=
  let nb_input_streams := nb_streams + nb_coupled
  let nb_output_streams := nb_channels
  if destProvided = false then (OPUS_BAD_ARG, dest)
  else
    let internal_size := nb_input_streams * nb_output_streams * 2
    if external_size ≠ internal_size then (OPUS_BAD_ARG, dest)
    else
      (OPUS_OK, writeBytes dest (serializeCoeffs
        ((List.range (nb_input_streams * nb_output_streams)).map
          fun i => data.getD i 0)))

/-- The `OPUS_PROJECTION_GET_DEMIXING_MATRIX_SIZE_REQUEST` branch of
`opus_projection_encoder_ctl`: fails with `OPUS_BAD_ARG` on a null output
slot, otherwise reports `channels * (streams + coupled) * 2` bytes.
Translated from `opus_projection_encoder.c` lines 340-351. -/
def ctl_get_demixing_matrix_size (nb_channels nb_streams nb_coupled : Nat)
    (valueProvided : Bool) : Int × Option Nat :=
  if valueProvided = false then (OPUS_BAD_ARG, none)
  else (OPUS_OK, some (nb_channels * (nb_streams + nb_coupled) * 2))

theorem isqrtFrom_eq_sqrt (n k : Nat) (hk : Nat.sqrt n ≤ k) :
    isqrtFrom n k = Nat.sqrt n := by
  induction k with
  | zero => exact (Nat.le_zero.mp hk).symm
  | succ k ih =>
    unfold isqrtFrom
    by_cases h : (k + 1) * (k + 1) ≤ n
    · rw [if_pos h]
      exact le_antisymm (Nat.le_sqrt.mpr h) hk
    · rw [if_neg h]
      exact ih (Nat.lt_succ_iff.mp (Nat.sqrt_lt.mpr (Nat.lt_of_not_le h)))

/-- `isqrt32` is exactly `floor(sqrt n)`. -/
theorem isqrt32_eq_sqrt (n : Nat) : isqrt32 n = Nat.sqrt n :=
  isqrtFrom_eq_sqrt n n (Nat.sqrt_le_self n)

/-- `alignN` only returns multiples of the alignment. -/
theorem alignN_dvd (a x : Nat) : a ∣ alignN a x :=
  dvd_mul_left a ((x + a - 1) / a)

/-- `mapping_matrix_get_size` only returns multiples of the alignment. -/
theorem mapping_matrix_get_size_dvd (a mmh rows cols : Nat) :
    a ∣ mapping_matrix_get_size a mmh rows cols :=
  Nat.dvd_add (alignN_dvd a mmh) (alignN_dvd a _)

/-- Aligning past a multiple of the alignment distributes:
`align (x + k) = align x + k` when `a ∣ k`. -/
theorem alignN_add_of_dvd (a x k : Nat) (ha : 0 < a) (hk : a ∣ k) :
    alignN a (x + k) = alignN a x + k := by
  obtain ⟨q, rfl⟩ := hk
  unfold alignN
  have h1 : x + a * q + a - 1 = x + a - 1 + q * a := by
    rw [Nat.mul_comm q a]
    generalize a * q = m
    omega
  rw [h1, Nat.add_mul_div_right _ _ ha, Nat.add_mul, Nat.mul_comm q a]

/-- `alignN` is monotone in the byte count. -/
theorem alignN_mono (a : Nat) {x y : Nat} (h : x ≤ y) :
    alignN a x ≤ alignN a y :=
  Nat.mul_le_mul_right _ (Nat.div_le_div_right (by omega))

/-- Resolution, written as a single conditional over the claim's arithmetic
condition on the channel count. -/
theorem get_order_plus_one_from_channels_eq (channels : Nat) :
    get_order_plus_one_from_channels channels =
      if 1 ≤ Nat.sqrt channels ∧ Nat.sqrt channels ≤ 15 ∧
          (channels - Nat.sqrt channels * Nat.sqrt channels = 0 ∨
           channels - Nat.sqrt channels * Nat.sqrt channels = 2)
      then Except.ok (Nat.sqrt channels)
      else Except.error OPUS_BAD_ARG := by
  unfold get_order_plus_one_from_channels
  rw [isqrt32_eq_sqrt]
  by_cases h : 1 ≤ Nat.sqrt channels ∧ Nat.sqrt channels ≤ 15 ∧
      (channels - Nat.sqrt channels * Nat.sqrt channels = 0 ∨
       channels - Nat.sqrt channels * Nat.sqrt channels = 2)
  · rw [if_neg (by omega), if_pos h]
  · rw [if_pos (by omega), if_neg h]

/-- Resolution for the ambisonics family, as a single conditional. -/
theorem get_streams_from_channels_eq (channels : Nat) :
    get_streams_from_channels channels 253 =
      if 1 ≤ Nat.sqrt channels ∧ Nat.sqrt channels ≤ 15 ∧
          (channels - Nat.sqrt channels * Nat.sqrt channels = 0 ∨
           channels - Nat.sqrt channels * Nat.sqrt channels = 2)
      then Except.ok ((channels + 1) / 2, channels / 2, Nat.sqrt channels)
      else Except.error OPUS_BAD_ARG := by
  unfold get_streams_from_channels
  rw [if_pos rfl, get_order_plus_one_from_channels_eq]
  by_cases h : 1 ≤ Nat.sqrt channels ∧ Nat.sqrt channels ≤ 15 ∧
      (channels - Nat.sqrt channels * Nat.sqrt channels = 0 ∨
       channels - Nat.sqrt channels * Nat.sqrt channels = 2)
  · rw [if_pos h, if_pos h]
  · rw [if_neg h, if_neg h]

/-- C1: for every channel count under mapping family 253 (ambisonics),
resolution succeeds iff `orderPlusOne = floor(sqrt channels)` satisfies
`1 ≤ orderPlusOne ≤ 15` and `channels - orderPlusOne^2 ∈ {0, 2}`; on success
it reports `streams = ceil(channels/2)` and `coupled = floor(channels/2)`,
and on any other channel count it fails with `OPUS_BAD_ARG` (the
invalid-channel-count error). -/
theorem C1_channel_config_resolution (channels : Nat) :
    ((∃ s c op1, get_streams_from_channels channels 253 =
        Except.ok (s, c, op1)) ↔
      (1 ≤ Nat.sqrt channels ∧ Nat.sqrt channels ≤ 15 ∧
        (channels - Nat.sqrt channels * Nat.sqrt channels = 0 ∨
         channels - Nat.sqrt channels * Nat.sqrt channels = 2))) ∧
    (∀ s c op1, get_streams_from_channels channels 253 =
        Except.ok (s, c, op1) →
      s = (channels + 1) / 2 ∧ c = channels / 2 ∧ op1 = Nat.sqrt channels) ∧
    (¬(1 ≤ Nat.sqrt channels ∧ Nat.sqrt channels ≤ 15 ∧
        (channels - Nat.sqrt channels * Nat.sqrt channels = 0 ∨
         channels - Nat.sqrt channels * Nat.sqrt channels = 2)) →
      get_streams_from_channels channels 253 = Except.error OPUS_BAD_ARG) := by
  rw [get_streams_from_channels_eq]
  by_cases h : 1 ≤ Nat.sqrt channels ∧ Nat.sqrt channels ≤ 15 ∧
      (channels - Nat.sqrt channels * Nat.sqrt channels = 0 ∨
       channels - Nat.sqrt channels * Nat.sqrt channels = 2)
  · rw [if_pos h]
    refine ⟨⟨fun _ => h, fun _ => ⟨_, _, _, rfl⟩⟩, ?_, fun hn => absurd h hn⟩
    intro s c op1 heq
    simp only [Except.ok.injEq, Prod.mk.injEq] at heq
    exact ⟨heq.1.symm, heq.2.1.symm, heq.2.2.symm⟩
  · rw [if_neg h]
    exact ⟨⟨fun ⟨_, _, _, heq⟩ => absurd heq (by simp), fun hc => absurd hc h⟩,
      fun s c op1 heq => absurd heq (by simp), fun _ => rfl⟩

/-- Inversion for a successful resolution: the condition holds and the
reported values are the stream formulas. -/
theorem get_streams_from_channels_ok_iff (channels s c op1 : Nat) :
    get_streams_from_channels channels 253 = Except.ok (s, c, op1) ↔
      ((1 ≤ Nat.sqrt channels ∧ Nat.sqrt channels ≤ 15 ∧
        (channels - Nat.sqrt channels * Nat.sqrt channels = 0 ∨
         channels - Nat.sqrt channels * Nat.sqrt channels = 2)) ∧
       s = (channels + 1) / 2 ∧ c = channels / 2 ∧ op1 = Nat.sqrt channels) := by
  rw [get_streams_from_channels_eq]
  by_cases h : 1 ≤ Nat.sqrt channels ∧ Nat.sqrt channels ≤ 15 ∧
      (channels - Nat.sqrt channels * Nat.sqrt channels = 0 ∨
       channels - Nat.sqrt channels * Nat.sqrt channels = 2)
  · rw [if_pos h]
    simp only [Except.ok.injEq, Prod.mk.injEq]
    constructor
    · rintro ⟨h1, h2, h3⟩
      exact ⟨h, h1.symm, h2.symm, h3.symm⟩
    · rintro ⟨-, h1, h2, h3⟩
      exact ⟨h1.symm, h2.symm, h3.symm⟩
  · rw [if_neg h]
    simp only [reduceCtorEq, false_iff]
    rintro ⟨hc, -⟩
    exact h hc

/-- Witness for C1 at concrete inputs: `channels = 4` resolves to streams 2,
coupled 2; `channels = 5` fails with `OPUS_BAD_ARG`. -/
theorem C1_channel_config_resolution_witness :
    get_streams_from_channels 4 253 = Except.ok (2, 2, 2) ∧
    get_streams_from_channels 5 253 = Except.error OPUS_BAD_ARG := by
  have h5 : Nat.sqrt 5 = 2 := by rw [← isqrt32_eq_sqrt]; decide
  exact ⟨by decide, (C1_channel_config_resolution 5).2.2 (by rw [h5]; decide)⟩

/-- C2: for every channel count valid under the ambisonics formula, the size
query returns `align(headerSize) + matrixSize + matrixSize + subEncoderSize`,
where the matrix block is square of dimension `orderPlusOne^2 + 2`; it
returns 0 when resolution fails or the sub-encoder size query reports 0.
(The sub-encoder sizes are alignment-sized, as the external multistream
encoder's are.) -/
theorem C2_size_query (a hSize mmh : Nat) (msSize : Nat → Nat → Nat)
    (channels : Nat) (ha : 0 < a) (hms : ∀ s c, a ∣ msSize s c) :
    opus_projection_ambisonics_encoder_get_size a hSize mmh msSize channels 253 =
      match get_streams_from_channels channels 253 with
      | Except.error _ => 0
      | Except.ok (s, c, op1) =>
        if msSize s c = 0 then 0
        else alignN a hSize +
          mapping_matrix_get_size a mmh (op1 * op1 + 2) (op1 * op1 + 2) +
          mapping_matrix_get_size a mmh (op1 * op1 + 2) (op1 * op1 + 2) +
          msSize s c := by
  cases h : get_streams_from_channels channels 253 with
  | error e =>
    simp only [opus_projection_ambisonics_encoder_get_size, h]
  | ok v =>
    obtain ⟨s, c, op1⟩ := v
    simp only [opus_projection_ambisonics_encoder_get_size, h]
    by_cases hz : msSize s c = 0
    · rw [if_pos hz, if_pos hz]
    · rw [if_neg hz, if_neg hz]
      have hd : a ∣ (mapping_matrix_get_size a mmh (op1 * op1 + 2) (op1 * op1 + 2) +
          mapping_matrix_get_size a mmh (op1 * op1 + 2) (op1 * op1 + 2) +
          msSize s c) :=
        Nat.dvd_add (Nat.dvd_add (mapping_matrix_get_size_dvd a mmh _ _)
          (mapping_matrix_get_size_dvd a mmh _ _)) (hms s c)
      calc alignN a (hSize + mapping_matrix_get_size a mmh (op1 * op1 + 2) (op1 * op1 + 2) +
              mapping_matrix_get_size a mmh (op1 * op1 + 2) (op1 * op1 + 2) + msSize s c)
          = alignN a (hSize + (mapping_matrix_get_size a mmh (op1 * op1 + 2) (op1 * op1 + 2) +
              mapping_matrix_get_size a mmh (op1 * op1 + 2) (op1 * op1 + 2) + msSize s c)) :=
            congrArg (alignN a) (by ring)
        _ = alignN a hSize + (mapping_matrix_get_size a mmh (op1 * op1 + 2) (op1 * op1 + 2) +
              mapping_matrix_get_size a mmh (op1 * op1 + 2) (op1 * op1 + 2) + msSize s c) :=
            alignN_add_of_dvd a hSize _ ha hd
        _ = alignN a hSize + mapping_matrix_get_size a mmh (op1 * op1 + 2) (op1 * op1 + 2) +
              mapping_matrix_get_size a mmh (op1 * op1 + 2) (op1 * op1 + 2) + msSize s c := by
            ring

/-- Witness for C2 at `channels = 4`, alignment 8, header 8 bytes, matrix
descriptor 16 bytes, the representative sub-encoder size query. -/
theorem C2_size_query_witness :
    opus_projection_ambisonics_encoder_get_size 8 8 16 msSizeModel 4 253 = 224 := by
  rw [C2_size_query 8 8 16 msSizeModel 4 (by decide) (fun s c => ⟨s + c + 1, rfl⟩)]
  decide

/-- C3: the three region accessors compute
`mixingMatrixOffset = align(headerSize)`,
`demixingMatrixOffset = mixingMatrixOffset + storedMixingSize` and
`subEncoderOffset = demixingMatrixOffset + storedDemixingSize`, for the
stored sizes actually recorded by initialization (values of
`mapping_matrix_get_size`, which are alignment-sized). -/
theorem C3_region_offsets (a hSize mmh r1 c1 r2 c2 : Nat) (ha : 0 < a) :
    get_mixing_matrix_offset a hSize = alignN a hSize ∧
    get_demixing_matrix_offset a hSize (mapping_matrix_get_size a mmh r1 c1) =
      get_mixing_matrix_offset a hSize + mapping_matrix_get_size a mmh r1 c1 ∧
    get_multistream_encoder_offset a hSize (mapping_matrix_get_size a mmh r1 c1)
        (mapping_matrix_get_size a mmh r2 c2) =
      get_demixing_matrix_offset a hSize (mapping_matrix_get_size a mmh r1 c1) +
        mapping_matrix_get_size a mmh r2 c2 := by
  refine ⟨rfl, ?_, ?_⟩
  · exact alignN_add_of_dvd a hSize _ ha (mapping_matrix_get_size_dvd a mmh r1 c1)
  · exact alignN_add_of_dvd a (hSize + mapping_matrix_get_size a mmh r1 c1) _ ha
      (mapping_matrix_get_size_dvd a mmh r2 c2)

/-- Witness for C3 with alignment 8, header 8 bytes, 6-by-6 matrices. -/
theorem C3_region_offsets_witness :
    get_demixing_matrix_offset 8 8 (mapping_matrix_get_size 8 16 6 6) =
      get_mixing_matrix_offset 8 8 + mapping_matrix_get_size 8 16 6 6 ∧
    get_multistream_encoder_offset 8 8 (mapping_matrix_get_size 8 16 6 6)
        (mapping_matrix_get_size 8 16 6 6) =
      get_demixing_matrix_offset 8 8 (mapping_matrix_get_size 8 16 6 6) +
        mapping_matrix_get_size 8 16 6 6 :=
  ⟨(C3_region_offsets 8 8 16 6 6 6 6 (by decide)).2.1,
   (C3_region_offsets 8 8 16 6 6 6 6 (by decide)).2.2⟩

/-- Counterexample to C8 as stated: the size query is not monotonically
non-decreasing over all channel counts.  Channel count 6 is valid (first
order plus two nondiegetic channels) and yields a positive size, while the
larger channel count 7 fails resolution and yields 0. -/
theorem C8_counterexample :
    opus_projection_ambisonics_encoder_get_size 8 8 16 msSizeModel 7 253 <
      opus_projection_ambisonics_encoder_get_size 8 8 16 msSizeModel 6 253 := by
  decide

/-- C8 (amended): the size query is deterministic (it is a pure function of
its arguments), and is monotonically non-decreasing over the channel counts
where configuration resolution succeeds, given that the external sub-encoder
size query is monotone; over all channel counts monotonicity fails, because
any channel count failing resolution yields 0. -/
theorem C8_size_monotone_on_valid (a hSize mmh : Nat) (msSize : Nat → Nat → Nat)
    (hmono : ∀ s1 c1 s2 c2, s1 ≤ s2 → c1 ≤ c2 → msSize s1 c1 ≤ msSize s2 c2)
    (ch1 ch2 s1 c1 o1 s2 c2 o2 : Nat) (hch : ch1 ≤ ch2)
    (h1 : get_streams_from_channels ch1 253 = Except.ok (s1, c1, o1))
    (h2 : get_streams_from_channels ch2 253 = Except.ok (s2, c2, o2)) :
    opus_projection_ambisonics_encoder_get_size a hSize mmh msSize ch1 253 ≤
      opus_projection_ambisonics_encoder_get_size a hSize mmh msSize ch2 253 := by
  obtain ⟨-, hs1, hc1, ho1⟩ := (get_streams_from_channels_ok_iff ch1 s1 c1 o1).mp h1
  obtain ⟨-, hs2, hc2, ho2⟩ := (get_streams_from_channels_ok_iff ch2 s2 c2 o2).mp h2
  have hss : s1 ≤ s2 := by
    rw [hs1, hs2]; exact Nat.div_le_div_right (by omega)
  have hcc : c1 ≤ c2 := by
    rw [hc1, hc2]; exact Nat.div_le_div_right hch
  have hoo : o1 ≤ o2 := by
    rw [ho1, ho2]; exact Nat.sqrt_le_sqrt hch
  simp only [opus_projection_ambisonics_encoder_get_size, h1, h2]
  by_cases hz1 : msSize s1 c1 = 0
  · rw [if_pos hz1]; exact Nat.zero_le _
  · have hms : msSize s1 c1 ≤ msSize s2 c2 := hmono s1 c1 s2 c2 hss hcc
    have hz2 : ¬ msSize s2 c2 = 0 := by omega
    rw [if_neg hz1, if_neg hz2]
    apply alignN_mono
    have hrows : o1 * o1 + 2 ≤ o2 * o2 + 2 := by
      have := Nat.mul_le_mul hoo hoo; omega
    have hmat : mapping_matrix_get_size a mmh (o1 * o1 + 2) (o1 * o1 + 2) ≤
        mapping_matrix_get_size a mmh (o2 * o2 + 2) (o2 * o2 + 2) := by
      unfold mapping_matrix_get_size
      exact Nat.add_le_add (Nat.le_refl _)
        (alignN_mono a (Nat.mul_le_mul (Nat.mul_le_mul hrows hrows) (Nat.le_refl 2)))
    exact Nat.add_le_add (Nat.add_le_add (Nat.add_le_add (Nat.le_refl hSize) hmat) hmat) hms

/-- Witness for the amended C8: channel counts 4 and 6 under the
representative sub-encoder size query. -/
theorem C8_size_monotone_on_valid_witness :
    opus_projection_ambisonics_encoder_get_size 8 8 16 msSizeModel 4 253 ≤
      opus_projection_ambisonics_encoder_get_size 8 8 16 msSizeModel 6 253 :=
  C8_size_monotone_on_valid 8 8 16 msSizeModel
    (fun s1 c1 s2 c2 hs hc => by simp only [msSizeModel]; omega)
    4 6 2 2 2 3 3 2 (by decide)
    (by decide) (by decide)

/-- A successful resolution under family 253 pins down the inner order
computation. -/
theorem get_streams_ok_order (channels s c op1 : Nat)
    (h : get_streams_from_channels channels 253 = Except.ok (s, c, op1)) :
    get_order_plus_one_from_channels channels = Except.ok op1 := by
  unfold get_streams_from_channels at h
  rw [if_pos rfl] at h
  cases ho : get_order_plus_one_from_channels channels with
  | error e => rw [ho] at h; exact absurd h (by simp)
  | ok o =>
    rw [ho] at h
    simp only [Except.ok.injEq, Prod.mk.injEq] at h
    rw [h.2.2]

/-- After a successful resolution with both out-pointers supplied,
initialization always writes the computed stream counts to the caller's
out-pointers, whatever status it returns. -/
theorem init_writes_outputs (mixGarbage demixGarbage : MappingMatrix)
    (msInit : Int) (channels s c op1 : Nat)
    (hres : get_streams_from_channels channels 253 = Except.ok (s, c, op1)) :
    (opus_projection_ambisonics_encoder_init mixGarbage demixGarbage msInit
        channels 253 true true).streamsOut = some s ∧
    (opus_projection_ambisonics_encoder_init mixGarbage demixGarbage msInit
        channels 253 true true).coupledOut = some c := by
  have ho := get_streams_ok_order channels s c op1 hres
  simp only [opus_projection_ambisonics_encoder_init, hres, ho]
  norm_num
  constructor <;> split <;> rfl

/-- C7: after a successful configuration resolution and matrix selection,
initialization fails with `OPUS_BAD_ARG` (InvalidArgument) whenever any of
the four dimension checks fails, and when all four hold it proceeds to the
sub-encoder initialization and returns its status. -/
theorem C7_matrix_dimension_checks (mixGarbage demixGarbage : MappingMatrix)
    (msInit : Int) (channels s c op1 : Nat)
    (hres : get_streams_from_channels channels 253 = Except.ok (s, c, op1)) :
    ((s + c > (catalogSelect mixGarbage 0 op1).rows ∨
      channels > (catalogSelect mixGarbage 0 op1).cols ∨
      channels > (catalogSelect demixGarbage 32767 op1).rows ∨
      s + c > (catalogSelect demixGarbage 32767 op1).cols) →
      (opus_projection_ambisonics_encoder_init mixGarbage demixGarbage msInit
          channels 253 true true).ret = OPUS_BAD_ARG) ∧
    (¬(s + c > (catalogSelect mixGarbage 0 op1).rows ∨
      channels > (catalogSelect mixGarbage 0 op1).cols ∨
      channels > (catalogSelect demixGarbage 32767 op1).rows ∨
      s + c > (catalogSelect demixGarbage 32767 op1).cols) →
      (opus_projection_ambisonics_encoder_init mixGarbage demixGarbage msInit
          channels 253 true true).ret = msInit) := by
  have ho := get_streams_ok_order channels s c op1 hres
  simp only [opus_projection_ambisonics_encoder_init, hres, ho]
  rw [if_pos trivial]
  constructor
  · intro h
    rw [if_pos h, if_neg (by simp)]
  · intro h
    rw [if_neg h, if_neg (by simp)]

/-- Witness for C7: `channels = 1` (order 0) passes resolution but has no
catalog entry; with an uninitialized descriptor reading as a 0-by-0 matrix
the checks fail and initialization returns `OPUS_BAD_ARG`. -/
theorem C7_matrix_dimension_checks_witness :
    (opus_projection_ambisonics_encoder_init ⟨0, 0, 0⟩ ⟨0, 0, 0⟩ 0
        1 253 true true).ret = OPUS_BAD_ARG :=
  (C7_matrix_dimension_checks ⟨0, 0, 0⟩ ⟨0, 0, 0⟩ 0 1 1 0 1 (by decide)).1
    (by decide)

/-- C10: when creation proceeds past allocation and initialization then
fails, the caller-supplied `streams` and `coupled_streams` outputs have
nevertheless been overwritten with the computed stream counts, even though
no handle is returned. -/
theorem C10_failing_create_writes_outputs (a hSize mmh : Nat)
    (msSize : Nat → Nat → Nat) (mixGarbage demixGarbage : MappingMatrix)
    (msInit : Int) (channels s c op1 : Nat)
    (hres : get_streams_from_channels channels 253 = Except.ok (s, c, op1))
    (hsize : opus_projection_ambisonics_encoder_get_size a hSize mmh msSize
      channels 253 ≠ 0)
    (hfail : (opus_projection_ambisonics_encoder_init mixGarbage demixGarbage
      msInit channels 253 true true).ret ≠ OPUS_OK) :
    (opus_projection_ambisonics_encoder_create a hSize mmh msSize mixGarbage
        demixGarbage msInit true channels 253 true true true).handle = false ∧
    (opus_projection_ambisonics_encoder_create a hSize mmh msSize mixGarbage
        demixGarbage msInit true channels 253 true true true).streamsOut =
      some s ∧
    (opus_projection_ambisonics_encoder_create a hSize mmh msSize mixGarbage
        demixGarbage msInit true channels 253 true true true).coupledOut =
      some c := by
  have houts := init_writes_outputs mixGarbage demixGarbage msInit
    channels s c op1 hres
  simp only [opus_projection_ambisonics_encoder_create, if_neg hsize]
  norm_num
  rw [if_neg hfail]
  exact ⟨rfl, houts.1, houts.2⟩

/-- Witness for C10: `channels = 4` with a failing sub-encoder initialization
(`OPUS_BAD_ARG`): no handle, but streams 2 and coupled streams 2 were
written. -/
theorem C10_failing_create_writes_outputs_witness :
    (opus_projection_ambisonics_encoder_create 8 8 16 msSizeModel ⟨0, 0, 0⟩
        ⟨0, 0, 0⟩ OPUS_BAD_ARG true 4 253 true true true).handle = false ∧
    (opus_projection_ambisonics_encoder_create 8 8 16 msSizeModel ⟨0, 0, 0⟩
        ⟨0, 0, 0⟩ OPUS_BAD_ARG true 4 253 true true true).streamsOut =
      some 2 ∧
    (opus_projection_ambisonics_encoder_create 8 8 16 msSizeModel ⟨0, 0, 0⟩
        ⟨0, 0, 0⟩ OPUS_BAD_ARG true 4 253 true true true).coupledOut =
      some 2 :=
  C10_failing_create_writes_outputs 8 8 16 msSizeModel ⟨0, 0, 0⟩ ⟨0, 0, 0⟩
    OPUS_BAD_ARG 4 2 2 2 (by decide) (by decide) (by decide)

/-- C4: once the composite buffer has been allocated, any initialization
failure makes create free the whole buffer, return no handle, and write the
failing status to the error slot when one is supplied; a handle is returned
only when initialization succeeded, and then the buffer is not freed. -/
theorem C4_create_failure_cleanup (a hSize mmh : Nat)
    (msSize : Nat → Nat → Nat) (mixGarbage demixGarbage : MappingMatrix)
    (msInit : Int) (channels : Nat) (mapping_family : Int)
    (sP cP eP : Bool)
    (hsize : opus_projection_ambisonics_encoder_get_size a hSize mmh msSize
      channels mapping_family ≠ 0) :
    (((opus_projection_ambisonics_encoder_init mixGarbage demixGarbage msInit
        channels mapping_family sP cP).ret ≠ OPUS_OK) →
      (opus_projection_ambisonics_encoder_create a hSize mmh msSize mixGarbage
          demixGarbage msInit true channels mapping_family sP cP eP).handle =
        false ∧
      (opus_projection_ambisonics_encoder_create a hSize mmh msSize mixGarbage
          demixGarbage msInit true channels mapping_family sP cP eP).allocated =
        true ∧
      (opus_projection_ambisonics_encoder_create a hSize mmh msSize mixGarbage
          demixGarbage msInit true channels mapping_family sP cP eP).freed =
        true ∧
      (opus_projection_ambisonics_encoder_create a hSize mmh msSize mixGarbage
          demixGarbage msInit true channels mapping_family sP cP eP).errorOut =
        (if eP then
          some (opus_projection_ambisonics_encoder_init mixGarbage demixGarbage
            msInit channels mapping_family sP cP).ret
        else none)) ∧
    ((opus_projection_ambisonics_encoder_create a hSize mmh msSize mixGarbage
        demixGarbage msInit true channels mapping_family sP cP eP).handle =
      true →
      (opus_projection_ambisonics_encoder_init mixGarbage demixGarbage msInit
        channels mapping_family sP cP).ret = OPUS_OK ∧
      (opus_projection_ambisonics_encoder_create a hSize mmh msSize mixGarbage
        demixGarbage msInit true channels mapping_family sP cP eP).freed =
        false) := by
  simp only [opus_projection_ambisonics_encoder_create, if_neg hsize]
  norm_num
  by_cases hf : (opus_projection_ambisonics_encoder_init mixGarbage
      demixGarbage msInit channels mapping_family sP cP).ret = OPUS_OK
  · rw [if_pos hf]
    exact ⟨fun h => absurd hf h, fun _ => ⟨hf, rfl⟩⟩
  · rw [if_neg hf]
    exact ⟨fun _ => ⟨rfl, rfl, rfl, rfl⟩, fun h => absurd h (by simp)⟩

/-- Witness for C4: `channels = 4` with a failing sub-encoder initialization:
the buffer was allocated and freed, no handle escapes, and the error slot
holds the failing status. -/
theorem C4_create_failure_cleanup_witness :
    (opus_projection_ambisonics_encoder_create 8 8 16 msSizeModel ⟨0, 0, 0⟩
        ⟨0, 0, 0⟩ OPUS_BAD_ARG true 4 253 true true true).handle = false ∧
    (opus_projection_ambisonics_encoder_create 8 8 16 msSizeModel ⟨0, 0, 0⟩
        ⟨0, 0, 0⟩ OPUS_BAD_ARG true 4 253 true true true).freed = true := by
  have h := (C4_create_failure_cleanup 8 8 16 msSizeModel ⟨0, 0, 0⟩ ⟨0, 0, 0⟩
    OPUS_BAD_ARG 4 253 true true true (by decide)).1 (by decide)
  exact ⟨h.1, h.2.2.1⟩

/-- The serialization emits two bytes per coefficient. -/
theorem serializeCoeffs_length (l : List Int) :
    (serializeCoeffs l).length = 2 * l.length := by
  induction l with
  | nil => rfl
  | cons v rest ih =>
    simp only [serializeCoeffs, List.length_cons, ih]
    omega

/-- The bytes at positions `2i` and `2i+1` of the serialization are the low
and high bytes of the `i`-th coefficient. -/
theorem serializeCoeffs_getElem (l : List Int) (i : Nat) (h : i < l.length) :
    (serializeCoeffs l)[2 * i]? = some (demixLoByte (l.getD i 0)) ∧
    (serializeCoeffs l)[2 * i + 1]? = some (demixHiByte (l.getD i 0)) := by
  induction l generalizing i with
  | nil => simp at h
  | cons v rest ih =>
    cases i with
    | zero => simp [serializeCoeffs]
    | succ j =>
      have hj : j < rest.length := by simpa using h
      have hrec := ih j hj
      have e1 : 2 * (j + 1) = 2 * j + 1 + 1 := by ring
      rw [e1]
      simp only [serializeCoeffs, List.getElem?_cons_succ, List.getD_cons_succ]
      exact hrec

/-- Bytes written inside the written region are read back unchanged. -/
theorem writeBytes_getElem (dest bytes : List Nat) (j : Nat)
    (hj : j < bytes.length) :
    (writeBytes dest bytes)[j]? = bytes[j]? := by
  unfold writeBytes
  rw [List.getElem?_append, if_pos hj]

/-- Serializing the first `n` stored coefficients: byte pair at `2i`/`2i+1`
is the little-endian encoding of coefficient `i`. -/
theorem serializeRange_getElem (data : List Int) (n i : Nat) (hi : i < n) :
    (serializeCoeffs ((List.range n).map fun k => data.getD k 0))[2 * i]? =
      some (demixLoByte (data.getD i 0)) ∧
    (serializeCoeffs ((List.range n).map fun k => data.getD k 0))[2 * i + 1]? =
      some (demixHiByte (data.getD i 0)) := by
  have hlen : i < ((List.range n).map fun k => data.getD k 0).length := by
    simpa using hi
  have h := serializeCoeffs_getElem _ i hlen
  have hmap : ((List.range n).map fun k => data.getD k 0).getD i 0 =
      data.getD i 0 := by
    rw [List.getD_eq_getElem?_getD, List.getElem?_map, List.getElem?_range hi]
    rfl
  rw [hmap] at h
  exact h

/-- C5: the `GetDemixingMatrix` request fails with `OPUS_BAD_ARG` whenever
the supplied byte length differs from the computed serialized size, leaving
the destination untouched; otherwise it succeeds and writes every serialized
coefficient as a little-endian 16-bit signed integer (byte `2i` the low byte
and byte `2i+1` the high byte of coefficient `i`, the pair reassembling the
16-bit two's-complement pattern `v mod 2^16`). -/
theorem C5_get_demixing_matrix_request (nb_channels nb_streams nb_coupled : Nat)
    (data : List Int) (dest : List Nat) (external_size : Nat) :
    (external_size ≠ (nb_streams + nb_coupled) * nb_channels * 2 →
      ctl_get_demixing_matrix nb_channels nb_streams nb_coupled data true dest
        external_size = (OPUS_BAD_ARG, dest)) ∧
    (external_size = (nb_streams + nb_coupled) * nb_channels * 2 →
      (ctl_get_demixing_matrix nb_channels nb_streams nb_coupled data true dest
        external_size).1 = OPUS_OK ∧
      (∀ i, i < (nb_streams + nb_coupled) * nb_channels →
        (ctl_get_demixing_matrix nb_channels nb_streams nb_coupled data true
          dest external_size).2[2 * i]? = some (demixLoByte (data.getD i 0)) ∧
        (ctl_get_demixing_matrix nb_channels nb_streams nb_coupled data true
          dest external_size).2[2 * i + 1]? =
          some (demixHiByte (data.getD i 0)))) ∧
    (∀ v : Int, (demixLoByte v : Int) + 256 * (demixHiByte v : Int) =
      v % 65536) := by
  refine ⟨?_, ?_, ?_⟩
  · intro hne
    unfold ctl_get_demixing_matrix
    rw [if_neg (by simp), if_pos hne]
  · intro he
    unfold ctl_get_demixing_matrix
    rw [if_neg (by simp), if_neg (by omega)]
    refine ⟨rfl, ?_⟩
    intro i hi
    have hser := serializeRange_getElem data
      ((nb_streams + nb_coupled) * nb_channels) i hi
    have hbl : 2 * i < (serializeCoeffs
        ((List.range ((nb_streams + nb_coupled) * nb_channels)).map
          fun k => data.getD k 0)).length := by
      rw [serializeCoeffs_length]
      simp only [List.length_map, List.length_range]
      omega
    have hbh : 2 * i + 1 < (serializeCoeffs
        ((List.range ((nb_streams + nb_coupled) * nb_channels)).map
          fun k => data.getD k 0)).length := by
      rw [serializeCoeffs_length]
      simp only [List.length_map, List.length_range]
      omega
    exact ⟨by rw [writeBytes_getElem _ _ _ hbl]; exact hser.1,
      by rw [writeBytes_getElem _ _ _ hbh]; exact hser.2⟩
  · intro v
    unfold demixLoByte demixHiByte
    rw [Int.fdiv_eq_ediv _ (by norm_num)]
    have b1 : 0 ≤ v % 256 := Int.emod_nonneg v (by norm_num)
    have b2 : 0 ≤ v / 256 % 256 := Int.emod_nonneg _ (by norm_num)
    rw [Int.toNat_of_nonneg b1, Int.toNat_of_nonneg b2]
    omega

/-- Witness for C5: a destination one byte short of the computed size (31
instead of 32 for a 4-channel, 4-stream matrix) fails with `OPUS_BAD_ARG`
and leaves the destination untouched. -/
theorem C5_get_demixing_matrix_request_witness :
    ctl_get_demixing_matrix 4 2 2 [1, -1, 3, 4] true [9, 9, 9] 31 =
      (OPUS_BAD_ARG, [9, 9, 9]) :=
  (C5_get_demixing_matrix_request 4 2 2 [1, -1, 3, 4] [9, 9, 9] 31).1
    (by decide)

/-- C6: the `GetDemixingMatrixSize` request returns
`channels * (streams + coupled) * 2` bytes, failing with `OPUS_BAD_ARG`
exactly when the output slot is null; and that value is exactly the byte
length the `GetDemixingMatrix` request accepts. -/
theorem C6_get_demixing_matrix_size_request
    (nb_channels nb_streams nb_coupled : Nat) (data : List Int)
    (dest : List Nat) :
    ctl_get_demixing_matrix_size nb_channels nb_streams nb_coupled true =
      (OPUS_OK, some (nb_channels * (nb_streams + nb_coupled) * 2)) ∧
    ctl_get_demixing_matrix_size nb_channels nb_streams nb_coupled false =
      (OPUS_BAD_ARG, none) ∧
    (ctl_get_demixing_matrix nb_channels nb_streams nb_coupled data true dest
      (nb_channels * (nb_streams + nb_coupled) * 2)).1 = OPUS_OK ∧
    (∀ len, (ctl_get_demixing_matrix nb_channels nb_streams nb_coupled data
        true dest len).1 = OPUS_OK →
      len = nb_channels * (nb_streams + nb_coupled) * 2) := by
  refine ⟨by rfl, by rfl, ?_, ?_⟩
  · unfold ctl_get_demixing_matrix
    rw [if_neg (by simp), if_neg (by rw [Nat.mul_comm nb_channels]; omega)]
  · intro len hlen
    unfold ctl_get_demixing_matrix at hlen
    rw [if_neg (by simp)] at hlen
    by_cases heq : len = (nb_streams + nb_coupled) * nb_channels * 2
    · rw [heq]
      ring
    · rw [if_pos heq] at hlen
      simp [OPUS_BAD_ARG, OPUS_OK] at hlen

/-- Witness for C6: byte length 32 is accepted for a 4-channel, 4-stream
demixing matrix and equals the size request's result. -/
theorem C6_get_demixing_matrix_size_request_witness :
    (32 : Nat) = 4 * (2 + 2) * 2 :=
  (C6_get_demixing_matrix_size_request 4 2 2 [] []).2.2.2 32 (by decide)

/-- Counterexample to C9 as stated: the failure code for an unsupported
mapping scheme is not distinct from the invalid-channel-count failure.  A
valid channel count with family 252 and an invalid channel count with
family 253 both fail with the same `OPUS_BAD_ARG`. -/
theorem C9_scheme_error_counterexample :
    get_streams_from_channels 4 252 = Except.error OPUS_BAD_ARG ∧
    get_streams_from_channels 5 253 = Except.error OPUS_BAD_ARG :=
  ⟨by decide, by decide⟩

/-- C9 (amended): for every mapping scheme tag other than 253, configuration
resolution fails with `OPUS_BAD_ARG` — the same code as an invalid channel
count, not a distinct one; the size query then reports 0, and create returns
no handle with `OPUS_ALLOC_FAIL` in the error slot.  (The distinct
`OPUS_UNIMPLEMENTED` code appears only in an unreachable branch of
initialization.) -/
theorem C9_unsupported_family_fails (channels : Nat) (family : Int)
    (hf : family ≠ 253) (a hSize mmh : Nat) (msSize : Nat → Nat → Nat)
    (mixGarbage demixGarbage : MappingMatrix) (msInit : Int)
    (allocOk sP cP eP : Bool) :
    get_streams_from_channels channels family = Except.error OPUS_BAD_ARG ∧
    opus_projection_ambisonics_encoder_get_size a hSize mmh msSize channels
      family = 0 ∧
    (opus_projection_ambisonics_encoder_create a hSize mmh msSize mixGarbage
      demixGarbage msInit allocOk channels family sP cP eP).handle = false ∧
    (opus_projection_ambisonics_encoder_create a hSize mmh msSize mixGarbage
      demixGarbage msInit allocOk channels family sP cP eP).errorOut =
      (if eP then some OPUS_ALLOC_FAIL else none) := by
  have h1 : get_streams_from_channels channels family =
      Except.error OPUS_BAD_ARG := by
    unfold get_streams_from_channels
    rw [if_neg hf]
  have h2 : opus_projection_ambisonics_encoder_get_size a hSize mmh msSize
      channels family = 0 := by
    unfold opus_projection_ambisonics_encoder_get_size
    rw [h1]
  refine ⟨h1, h2, ?_, ?_⟩ <;>
  · simp only [opus_projection_ambisonics_encoder_create, h2]
    rw [if_pos trivial]

/-- Witness for the amended C9: family 2 with 4 channels fails resolution
with `OPUS_BAD_ARG` and the size query reports 0. -/
theorem C9_unsupported_family_fails_witness :
    get_streams_from_channels 4 2 = Except.error OPUS_BAD_ARG ∧
    opus_projection_ambisonics_encoder_get_size 8 8 16 msSizeModel 4 2 = 0 :=
  ⟨(C9_unsupported_family_fails 4 2 (by decide) 8 8 16 msSizeModel ⟨0, 0, 0⟩
      ⟨0, 0, 0⟩ 0 true true true true).1,
   (C9_unsupported_family_fails 4 2 (by decide) 8 8 16 msSizeModel ⟨0, 0, 0⟩
      ⟨0, 0, 0⟩ 0 true true true true).2.1⟩
